import Mathlib

/-!
Shallow embedding of the AMD backend HTTP handlers (src/api_server.py).

Conventions of the embedding:
- Python floats are modelled as rationals. All values reaching the
  handlers come from JSON numbers, and every operation performed on them
  (comparison, +, -, *, truncation to int, min / max) agrees with the
  rational semantics on the inputs the claims quantify over.
- A JSON field that is absent, null, or an empty string is modelled as
  `none`; a field carrying a parseable numeric value is `some v`.
- The three scikit-learn estimators are opaque artifacts. The embedding
  abstracts them as an environment: a loaded-flag per artifact, plus a
  predict function per artifact returning `Except Unit v`, where
  `.error ()` models the invocation raising an exception and `.ok v` a
  raw prediction value. The regressor returns a float, the classifier an
  integer class code, the anomaly detector an integer (-1 or 1).
- A Flask response is modelled by an inductive with one constructor per
  distinct return site of the handler, and an `httpStatus` projection
  giving the HTTP code that the return site produces.
-/

namespace AMDBackend

/-- Python `int()` applied to a float: truncation toward zero. -/
def pyInt (q : ℚ) : ℤ := if 0 ≤ q then ⌊q⌋ else ⌈q⌉

/-! ### Request and response shapes for `/api/ai-predictions` -/

/-- The JSON body of a prediction request. Each of the three fields the
handler reads may be absent (`request.json` is a dict; `data.get` with a
default is used at src/api_server.py lines 112-114). -/
structure RequestBody where
  pH : Option ℚ
  turbidity : Option ℚ
  orp : Option ℚ
deriving Repr, DecidableEq

/-- The `maintenance` group of a prediction bundle
(src/api_server.py lines 134-150). -/
structure MaintResult where
  days_until_replacement : ℤ
  confidence : ℤ
  error : Option String
deriving Repr, DecidableEq

/-- The `quality` group of a prediction bundle
(src/api_server.py lines 163-185). -/
structure QualityResult where
  status : String
  confidence : ℚ
  error : Option String
deriving Repr, DecidableEq

/-- The `anomaly` group of a prediction bundle
(src/api_server.py lines 198-214). -/
structure AnomalyResult where
  is_anomaly : Bool
  status : String
  error : Option String
deriving Repr, DecidableEq

/-- The `predictions` dict built incrementally by the handler
(src/api_server.py line 118: `predictions = {}`). A key that has not
been assigned is `none`. -/
structure Predictions where
  maintenance : Option MaintResult
  quality : Option QualityResult
  anomaly : Option AnomalyResult
deriving Repr, DecidableEq

/-- The process-wide model state: the load flags of
src/api_server.py lines 18-43 together with the opaque predict
operations of the three artifacts. `.error ()` models a raised
exception during `predict`. -/
structure ModelsEnv where
  pm_loaded : Bool
  class_loaded : Bool
  anomaly_loaded : Bool
  pm_predict : ℚ → ℚ → ℚ → ℚ → Except Unit ℚ
  class_predict : ℚ → ℚ → Except Unit ℤ
  anomaly_predict : ℚ → ℚ → Except Unit ℤ

/-- The possible responses of `get_ai_predictions`, one constructor per
return site. -/
inductive PredResponse where
  | success (predictions : Predictions)
  | clientError (error : String)
  | serverError (error : String)
deriving Repr, DecidableEq

/-- HTTP status code of each return site of `get_ai_predictions`:
`jsonify(predictions)` is 200, the no-data return is 400
(src/api_server.py line 110), the outer except return is 500
(src/api_server.py line 229). -/
def PredResponse.httpStatus : PredResponse → ℕ
  | .success _ => 200
  | .clientError _ => 400
  | .serverError _ => 500

/-- `quality_labels = ['Safe', 'Warning', 'Dangerous']`
(src/api_server.py line 161). -/
def quality_labels : List String := ["Safe", "Warning", "Dangerous"]

/-- The heuristic water-quality thresholds of
src/api_server.py lines 168-173 (the branch taken when the classifier
artifact is not loaded). -/
def heuristicQuality (pH turbidity : ℚ) : String :=
  if pH < 4 ∨ 1500 < turbidity then "Dangerous"
  else if pH < 5 ∨ 1000 < turbidity then "Warning"
  else "Safe"

/-- Try-block 1 of `get_ai_predictions` (src/api_server.py
lines 121-150): predictive maintenance. The feature row is
(pH, turbidity, orp, pH_rolling_avg = pH). -/
def maintenancePrediction (env : ModelsEnv) (pH turbidity orp : ℚ) :
    MaintResult :=
  if env.pm_loaded then
    match env.pm_predict pH turbidity orp pH with
    | .ok pm_pred =>
        { days_until_replacement := max 1 (pyInt pm_pred)
          confidence := min 95 (max 70 (pyInt (85 + (pH - 4) * 5)))
          error := none }
    | .error _ =>
        { days_until_replacement := 5
          confidence := 50
          error := some "Model unavailable" }
  else
    { days_until_replacement := max 1 (pyInt (7 - (7 - pH) * 2))
      confidence := 75
      error := none }

/-- Try-block 2 of `get_ai_predictions` (src/api_server.py
lines 153-185): water quality classification. The raw class code is
clamped with `min(len(quality_labels)-1, max(0, quality_pred))` before
indexing the label table. -/
def qualityPrediction (env : ModelsEnv) (pH turbidity : ℚ) :
    QualityResult :=
  if env.class_loaded then
    match env.class_predict pH turbidity with
    | .ok quality_pred =>
        { status := quality_labels.getD
            (min ((quality_labels.length : ℤ) - 1)
              (max 0 quality_pred)).toNat ""
          confidence := 9/10
          error := none }
    | .error _ =>
        { status := "Unknown"
          confidence := 1/2
          error := some "Model unavailable" }
  else
    { status := heuristicQuality pH turbidity
      confidence := 7/10
      error := none }

/-- Try-block 3 of `get_ai_predictions` (src/api_server.py
lines 188-214): anomaly detection. The detector output -1 is the
anomaly sentinel. -/
def anomalyPrediction (env : ModelsEnv) (pH turbidity : ℚ) :
    AnomalyResult :=
  if env.anomaly_loaded then
    match env.anomaly_predict pH turbidity with
    | .ok anomaly_pred =>
        let is_anomaly := anomaly_pred == -1
        { is_anomaly := is_anomaly
          status := if is_anomaly then "Anomaly Detected"
                    else "Normal Operation"
          error := none }
    | .error _ =>
        { is_anomaly := false
          status := "Detection unavailable"
          error := some "Model unavailable" }
  else
    let is_anomaly :=
      decide (pH < 3) || decide (9 < pH) || decide (2000 < turbidity)
    { is_anomaly := is_anomaly
      status := if is_anomaly then "Anomaly Detected"
                else "Normal Operation"
      error := none }

/-- The `/api/ai-predictions` handler (src/api_server.py
lines 104-229). `data = none` models a request whose `request.json` is
falsy (absent body or empty dict), taken at line 109-110. Otherwise the
three fields are read with defaults 6.5, 500, -100 and the three
try-blocks each assign their key of the `predictions` dict; every
branch of every try-block assigns the key, and the handler returns the
dict with HTTP 200. -/
def get_ai_predictions (env : ModelsEnv) (data : Option RequestBody) :
    PredResponse :=
  match data with
  | none => .clientError "No data provided"
  | some body =>
    let pH : ℚ := body.pH.getD (13/2)
    let turbidity : ℚ := body.turbidity.getD 500
    let orp : ℚ := body.orp.getD (-100)
    let predictions0 : Predictions :=
      { maintenance := none, quality := none, anomaly := none }
    let predictions1 :=
      { predictions0 with
          maintenance := some (maintenancePrediction env pH turbidity orp) }
    let predictions2 :=
      { predictions1 with
          quality := some (qualityPrediction env pH turbidity) }
    let predictions3 :=
      { predictions2 with
          anomaly := some (anomalyPrediction env pH turbidity) }
    .success predictions3

/-! ### `/api/current-data` and `/api/historical-data` -/

/-- One JSON object of the remote telemetry feed: `field1..field4`
string-or-null, plus `created_at`. A field that is absent, null or an
empty string (all falsy in the Python truthiness test) is `none`. -/
structure TelemetryPayload where
  field1 : Option ℚ
  field2 : Option ℚ
  field3 : Option ℚ
  field4 : Option ℤ
  created_at : Option String
deriving Repr, DecidableEq

/-- Outcome of the outbound `requests.get` + `raise_for_status` +
`.json()` sequence. `requestException` covers a network failure and a
non-2xx status (`raise_for_status` raises an HTTPError, a subclass of
RequestException); `otherException` covers any other raised error. -/
inductive FetchOutcome where
  | success (payload : TelemetryPayload)
  | requestException (details : String)
  | otherException (details : String)
deriving Repr, DecidableEq

/-- The `fallback_data` object of the error body
(src/api_server.py lines 93-98). -/
structure FallbackData where
  pH : ℚ
  turbidity : ℚ
  orp : ℚ
  alert_code : ℤ
deriving Repr, DecidableEq

/-- The success body of `/api/current-data`
(src/api_server.py lines 76-83). -/
structure CurrentReading where
  pH : ℚ
  turbidity : ℚ
  orp : ℚ
  alert_code : ℤ
  timestamp : String
deriving Repr, DecidableEq

/-- The responses of `get_current_data`, one constructor per return
site. -/
inductive CurrentDataResponse where
  | ok (reading : CurrentReading)
  | fetchError (details : String) (fallback_data : FallbackData)
  | internalError (details : String)
deriving Repr, DecidableEq

/-- HTTP status of each return site of `get_current_data`: the success
body is 200, both error bodies carry 500
(src/api_server.py lines 99 and 102). -/
def CurrentDataResponse.httpStatus : CurrentDataResponse → ℕ
  | .ok _ => 200
  | .fetchError _ _ => 500
  | .internalError _ => 500

/-- The `/api/current-data` handler (src/api_server.py lines 59-102).
Field-by-field: `float(data.get(f)) if data.get(f) else default` with
defaults 6.5, 500, -100, 0 (lines 71-74). -/
def get_current_data (outcome : FetchOutcome) : CurrentDataResponse :=
  match outcome with
  | .success data =>
      .ok { pH := data.field1.getD (13/2)
            turbidity := data.field2.getD 500
            orp := data.field3.getD (-100)
            alert_code := data.field4.getD 0
            timestamp := data.created_at.getD "" }
  | .requestException e =>
      .fetchError e
        { pH := 13/2, turbidity := 500, orp := -100, alert_code := 0 }
  | .otherException e => .internalError e

/-- One entry of the `/api/historical-data` response
(src/api_server.py lines 242-248). Note that the sensor fields are
`float(feed.get(f)) if feed.get(f) else None`: a missing field stays
`None` here, only `alert_code` defaults to 0. -/
structure HistEntry where
  timestamp : String
  pH : Option ℚ
  turbidity : Option ℚ
  orp : Option ℚ
  alert_code : ℤ
deriving Repr, DecidableEq

/-- The per-feed mapping of the history loop (src/api_server.py
lines 241-248). -/
def processFeedEntry (feed : TelemetryPayload) : HistEntry :=
  { timestamp := feed.created_at.getD ""
    pH := feed.field1
    turbidity := feed.field2
    orp := feed.field3
    alert_code := feed.field4.getD 0 }

/-- Outcome of the outbound history fetch. -/
inductive HistOutcome where
  | success (feeds : List TelemetryPayload)
  | exception (details : String)
deriving Repr, DecidableEq

/-- The responses of `get_historical_data`. -/
inductive HistResponse where
  | ok (entries : List HistEntry)
  | internalError (details : String)
deriving Repr, DecidableEq

/-- The `/api/historical-data` handler (src/api_server.py
lines 231-254). -/
def get_historical_data (outcome : HistOutcome) : HistResponse :=
  match outcome with
  | .success data => .ok (data.map processFeedEntry)
  | .exception e => .internalError e

/-! ### `/api/models-status` -/

/-- The outcome of the three `joblib.load` attempts at process start
(src/api_server.py lines 24-43): each flag is true exactly when the
corresponding artifact deserialized without raising. -/
structure LoadOutcomes where
  pm_model : Bool
  class_model : Bool
  anomaly_model : Bool
deriving Repr, DecidableEq

/-- The body of `/api/models-status` (src/api_server.py lines 259-263):
the flag dict, `total_models = len(models_loaded)` and
`loaded_count = sum(models_loaded.values())`. -/
structure ModelsStatus where
  pm_model : Bool
  class_model : Bool
  anomaly_model : Bool
  total_models : ℕ
  loaded_count : ℕ
deriving Repr, DecidableEq

/-- The `/api/models-status` handler (src/api_server.py
lines 256-263). -/
def get_models_status (loads : LoadOutcomes) : ModelsStatus :=
  { pm_model := loads.pm_model
    class_model := loads.class_model
    anomaly_model := loads.anomaly_model
    total_models := 3
    loaded_count :=
      (if loads.pm_model then 1 else 0) +
      (if loads.class_model then 1 else 0) +
      (if loads.anomaly_model then 1 else 0) }

/-- Spec-side count: the number of model artifacts that successfully
deserialized at process start. -/
def successfulLoads (loads : LoadOutcomes) : ℕ :=
  [loads.pm_model, loads.class_model, loads.anomaly_model].count true

/-! ### Severity order on quality statuses -/

/-- Severity scale Safe < Warning < Dangerous used to compare heuristic
statuses. -/
def severity (status : String) : ℕ :=
  if status = "Dangerous" then 2
  else if status = "Warning" then 1
  else 0

/-! ### Concrete environments used as witnesses and counterexamples -/

/-- Environment in which no artifact loaded: every group takes its
heuristic branch. -/
def noModelsEnv : ModelsEnv :=
  { pm_loaded := false
    class_loaded := false
    anomaly_loaded := false
    pm_predict := fun _ _ _ _ => .error ()
    class_predict := fun _ _ => .error ()
    anomaly_predict := fun _ _ => .error ()
    }

/-- Environment in which all three artifacts loaded and return fixed
raw outputs (regressor 5.0, classifier class code 7, detector -1). -/
def constModelsEnv : ModelsEnv :=
  { pm_loaded := true
    class_loaded := true
    anomaly_loaded := true
    pm_predict := fun _ _ _ _ => .ok 5
    class_predict := fun _ _ => .ok 7
    anomaly_predict := fun _ _ => .ok (-1)
    }

/-- Environment in which all three artifacts loaded but every
invocation raises. -/
def raisingModelsEnv : ModelsEnv :=
  { pm_loaded := true
    class_loaded := true
    anomaly_loaded := true
    pm_predict := fun _ _ _ _ => .error ()
    class_predict := fun _ _ => .error ()
    anomaly_predict := fun _ _ => .error ()
    }

/-! ## Theorems -/

/-- C1 counterexample: a request body that is present but lacks the
`turbidity` field is answered with HTTP 200 (a full prediction
bundle), not with HTTP 400 as the claim states. -/
theorem missing_field_not_rejected :
    (get_ai_predictions noModelsEnv
        (some { pH := some 7, turbidity := none, orp := some (-100) })).httpStatus
      = 200 ∧
    (get_ai_predictions noModelsEnv
        (some { pH := some 7, turbidity := none, orp := some (-100) })).httpStatus
      ≠ 400 := by
  constructor <;> decide

/-- C1 amended: a missing `pH`, `turbidity` or `orp` field of a
present request body is replaced by its default (6.5, 500, -100) and
the handler answers HTTP 200 with a bundle containing all three
groups; only a falsy body (absent or empty) is answered with
HTTP 400 and an error body. -/
theorem missing_fields_defaulted (env : ModelsEnv) (body : RequestBody) :
    get_ai_predictions env none = .clientError "No data provided" ∧
    (get_ai_predictions env none).httpStatus = 400 ∧
    (∃ p, get_ai_predictions env (some body) = .success p ∧
       p.maintenance.isSome ∧ p.quality.isSome ∧ p.anomaly.isSome) ∧
    get_ai_predictions env (some { body with pH := none }) =
      get_ai_predictions env (some { body with pH := some (13/2) }) ∧
    get_ai_predictions env (some { body with turbidity := none }) =
      get_ai_predictions env (some { body with turbidity := some 500 }) ∧
    get_ai_predictions env (some { body with orp := none }) =
      get_ai_predictions env (some { body with orp := some (-100) }) := by
  exact ⟨rfl, rfl, ⟨_, rfl, rfl, rfl, rfl⟩, rfl, rfl, rfl⟩

/-- C3: when the classifier artifact is not loaded, the quality group
is classified Dangerous when pH < 4.0 or turbidity > 1500, else
Warning when pH < 5.0 or turbidity > 1000, else Safe. -/
theorem heuristic_quality_thresholds (env : ModelsEnv) (p t : ℚ)
    (h : env.class_loaded = false) :
    (qualityPrediction env p t).status =
      (if p < 4 ∨ 1500 < t then "Dangerous"
       else if p < 5 ∨ 1000 < t then "Warning"
       else "Safe") := by
  simp [qualityPrediction, h, heuristicQuality]

/-- Witness for the C3 theorem at a concrete unloaded environment and
input. -/
theorem heuristic_quality_thresholds_witness :
    noModelsEnv.class_loaded = false ∧
    (qualityPrediction noModelsEnv 3 0).status =
      (if (3:ℚ) < 4 ∨ (1500:ℚ) < 0 then "Dangerous"
       else if (3:ℚ) < 5 ∨ (1000:ℚ) < 0 then "Warning"
       else "Safe") :=
  ⟨rfl, heuristic_quality_thresholds noModelsEnv 3 0 rfl⟩

/-- Severity of the heuristic classification as a nested conditional
on the documented thresholds. -/
theorem severity_heuristicQuality (p t : ℚ) :
    severity (heuristicQuality p t) =
      (if p < 4 ∨ 1500 < t then 2
       else if p < 5 ∨ 1000 < t then 1
       else 0) := by
  unfold heuristicQuality severity
  split_ifs <;> simp_all

/-- Monotonicity of a two-threshold severity scale under pointwise
implication of the threshold conditions. -/
theorem two_threshold_mono (A₁ A₂ B₁ B₂ : Prop)
    [Decidable A₁] [Decidable A₂] [Decidable B₁] [Decidable B₂]
    (hA : A₂ → A₁) (hB : B₂ → B₁) :
    (if A₂ then 2 else if B₂ then 1 else 0 : ℕ) ≤
      (if A₁ then 2 else if B₁ then 1 else 0) := by
  split_ifs <;> first | omega | (exfalso; tauto)

/-- C4: the heuristic quality classification is monotone on the scale
Safe < Warning < Dangerous: at equal turbidity a lower pH is at least
as severe, and at equal pH a higher turbidity is at least as
severe. -/
theorem heuristic_quality_monotone (p₁ p₂ tq q t₁ t₂ : ℚ)
    (hp : p₁ < p₂) (ht : t₂ < t₁) :
    severity (heuristicQuality p₂ tq) ≤ severity (heuristicQuality p₁ tq) ∧
    severity (heuristicQuality q t₂) ≤ severity (heuristicQuality q t₁) := by
  rw [severity_heuristicQuality, severity_heuristicQuality,
      severity_heuristicQuality, severity_heuristicQuality]
  constructor
  · exact two_threshold_mono _ _ _ _
      (fun h => h.elim (fun h2 => Or.inl (hp.trans h2)) Or.inr)
      (fun h => h.elim (fun h2 => Or.inl (hp.trans h2)) Or.inr)
  · exact two_threshold_mono _ _ _ _
      (fun h => h.elim Or.inl (fun h2 => Or.inr (h2.trans ht)))
      (fun h => h.elim Or.inl (fun h2 => Or.inr (h2.trans ht)))

/-- Witness for the C4 theorem at concrete inputs. -/
theorem heuristic_quality_monotone_witness :
    (3:ℚ) < 7 ∧ (0:ℚ) < 100 ∧
    (severity (heuristicQuality 7 500) ≤ severity (heuristicQuality 3 500) ∧
     severity (heuristicQuality 6 0) ≤ severity (heuristicQuality 6 100)) :=
  ⟨by norm_num, by norm_num,
   heuristic_quality_monotone 3 7 500 6 100 0 (by norm_num) (by norm_num)⟩

/-- C5: when the outbound telemetry request fails (network failure or
non-2xx status, both raising a RequestException), the handler answers
HTTP 500 with an error body whose fallback_data holds exactly the
fixed defaults pH 6.5, turbidity 500, orp -100, alert_code 0. -/
theorem current_data_fetch_failure (e : String) :
    get_current_data (.requestException e) =
      .fetchError e
        { pH := 13/2, turbidity := 500, orp := -100, alert_code := 0 } ∧
    (get_current_data (.requestException e)).httpStatus = 500 :=
  ⟨rfl, rfl⟩

/-- C6 counterexample: in the history path a feed entry whose `field1`
is absent produces pH = null, not the default 6.5 the claim states. -/
theorem history_missing_field_stays_null :
    (processFeedEntry
        { field1 := none, field2 := some 5, field3 := some 3,
          field4 := some 1, created_at := some "2025-01-01" }).pH = none ∧
    (processFeedEntry
        { field1 := none, field2 := some 5, field3 := some 3,
          field4 := some 1, created_at := some "2025-01-01" }).pH ≠
      some (13/2) := by
  constructor <;> decide

/-- C6 amended: no missing field is fatal in either path; the
latest-reading path substitutes the documented defaults (pH 6.5,
turbidity 500, orp -100, alert_code 0) field by field, while the
history path keeps a missing pH, turbidity or orp as null and only
defaults alert_code to 0. -/
theorem per_field_defaults (f1 f2 f3 : Option ℚ) (f4 : Option ℤ)
    (ts : Option String) (feeds : List TelemetryPayload) :
    (∃ r, get_current_data (.success ⟨none, f2, f3, f4, ts⟩) = .ok r ∧
       r.pH = 13/2) ∧
    (∃ r, get_current_data (.success ⟨f1, none, f3, f4, ts⟩) = .ok r ∧
       r.turbidity = 500) ∧
    (∃ r, get_current_data (.success ⟨f1, f2, none, f4, ts⟩) = .ok r ∧
       r.orp = -100) ∧
    (∃ r, get_current_data (.success ⟨f1, f2, f3, none, ts⟩) = .ok r ∧
       r.alert_code = 0) ∧
    (processFeedEntry ⟨none, f2, f3, f4, ts⟩).pH = none ∧
    (processFeedEntry ⟨f1, none, f3, f4, ts⟩).turbidity = none ∧
    (processFeedEntry ⟨f1, f2, none, f4, ts⟩).orp = none ∧
    (processFeedEntry ⟨f1, f2, f3, none, ts⟩).alert_code = 0 ∧
    get_historical_data (.success feeds) = .ok (feeds.map processFeedEntry) :=
  ⟨⟨_, rfl, rfl⟩, ⟨_, rfl, rfl⟩, ⟨_, rfl, rfl⟩, ⟨_, rfl, rfl⟩,
   rfl, rfl, rfl, rfl, rfl⟩

/-- C9: the models-status body reports loaded_count equal to the
number of artifacts that successfully deserialized at process start,
and that count never exceeds 3. -/
theorem models_status_loaded_count (loads : LoadOutcomes) :
    (get_models_status loads).loaded_count = successfulLoads loads ∧
    (get_models_status loads).loaded_count ≤ 3 := by
  obtain ⟨a, b, c⟩ := loads
  cases a <;> cases b <;> cases c <;> decide

/-- C2: every well-formed prediction request (pH in [0,14],
turbidity nonnegative, any orp) is answered with HTTP 200 and a bundle
in which all three groups — maintenance, quality and anomaly — are
present. -/
theorem wellformed_request_full_bundle (env : ModelsEnv) (p t o : ℚ)
    (h0 : 0 ≤ p) (h14 : p ≤ 14) (ht : 0 ≤ t) :
    ∃ m q a,
      get_ai_predictions env
          (some { pH := some p, turbidity := some t, orp := some o }) =
        .success { maintenance := some m, quality := some q,
                   anomaly := some a } ∧
      (get_ai_predictions env
          (some { pH := some p, turbidity := some t, orp := some o })).httpStatus
        = 200 :=
  ⟨_, _, _, rfl, rfl⟩

/-- Witness for the C2 theorem at a concrete environment and input. -/
theorem wellformed_request_full_bundle_witness :
    (0:ℚ) ≤ 7 ∧ (7:ℚ) ≤ 14 ∧ (0:ℚ) ≤ 500 ∧
    ∃ m q a,
      get_ai_predictions noModelsEnv
          (some { pH := some 7, turbidity := some 500, orp := some (-100) }) =
        .success { maintenance := some m, quality := some q,
                   anomaly := some a } ∧
      (get_ai_predictions noModelsEnv
          (some { pH := some 7, turbidity := some 500,
                  orp := some (-100) })).httpStatus = 200 :=
  ⟨by norm_num, by norm_num, by norm_num,
   wellformed_request_full_bundle noModelsEnv 7 500 (-100)
     (by norm_num) (by norm_num) (by norm_num)⟩

/-- C7 counterexample: with the maintenance artifact absent the group
falls back to the threshold rule but carries no error field, contrary
to the claim that the fallback result is marked with one. -/
theorem absent_artifact_no_error_field :
    noModelsEnv.pm_loaded = false ∧
    (maintenancePrediction noModelsEnv 7 500 (-100)).error = none :=
  ⟨rfl, rfl⟩

/-- C7 amended: when an artifact is absent its group falls back to the
deterministic threshold rule for that role without an error field;
when the artifact is loaded but its invocation raises, the group gets
a fixed default value marked with an error field; in both cases the
group still holds a usable value and the overall response keeps
HTTP 200. -/
theorem per_group_fallbacks (env : ModelsEnv) (p t o : ℚ) :
    (env.pm_loaded = false →
      maintenancePrediction env p t o =
        { days_until_replacement := max 1 (pyInt (7 - (7 - p) * 2)),
          confidence := 75, error := none }) ∧
    (∀ u, env.pm_predict p t o p = .error u → env.pm_loaded = true →
      maintenancePrediction env p t o =
        { days_until_replacement := 5, confidence := 50,
          error := some "Model unavailable" }) ∧
    (env.class_loaded = false →
      qualityPrediction env p t =
        { status := heuristicQuality p t, confidence := 7/10,
          error := none }) ∧
    (∀ u, env.class_predict p t = .error u → env.class_loaded = true →
      qualityPrediction env p t =
        { status := "Unknown", confidence := 1/2,
          error := some "Model unavailable" }) ∧
    (env.anomaly_loaded = false →
      (anomalyPrediction env p t).error = none ∧
      (anomalyPrediction env p t).is_anomaly =
        (decide (p < 3) || decide (9 < p) || decide (2000 < t))) ∧
    (∀ u, env.anomaly_predict p t = .error u → env.anomaly_loaded = true →
      anomalyPrediction env p t =
        { is_anomaly := false, status := "Detection unavailable",
          error := some "Model unavailable" }) ∧
    (get_ai_predictions env
        (some { pH := some p, turbidity := some t,
                orp := some o })).httpStatus = 200 := by
  refine ⟨?_, ?_, ?_, ?_, ?_, ?_, rfl⟩
  · intro h; simp [maintenancePrediction, h]
  · intro u hu h; simp [maintenancePrediction, h, hu]
  · intro h; simp [qualityPrediction, h]
  · intro u hu h; simp [qualityPrediction, h, hu]
  · intro h; simp [anomalyPrediction, h]
  · intro u hu h; simp [anomalyPrediction, h, hu]

/-- Witness for the C7 theorem: the absent-artifact branch at
noModelsEnv and the raising branch at raisingModelsEnv. -/
theorem per_group_fallbacks_witness :
    maintenancePrediction noModelsEnv 7 500 (-100) =
      { days_until_replacement := max 1 (pyInt (7 - (7 - 7) * 2)),
        confidence := 75, error := none } ∧
    maintenancePrediction raisingModelsEnv 7 500 (-100) =
      { days_until_replacement := 5, confidence := 50,
        error := some "Model unavailable" } ∧
    qualityPrediction raisingModelsEnv 7 500 =
      { status := "Unknown", confidence := 1/2,
        error := some "Model unavailable" } ∧
    anomalyPrediction raisingModelsEnv 7 500 =
      { is_anomaly := false, status := "Detection unavailable",
        error := some "Model unavailable" } :=
  ⟨(per_group_fallbacks noModelsEnv 7 500 (-100)).1 rfl,
   (per_group_fallbacks raisingModelsEnv 7 500 (-100)).2.1 () rfl rfl,
   (per_group_fallbacks raisingModelsEnv 7 500 (-100)).2.2.2.1 () rfl rfl,
   (per_group_fallbacks raisingModelsEnv 7 500 (-100)).2.2.2.2.2.1 () rfl rfl⟩

/-- The clamped label-table lookup of the model quality path as a
case distinction on the raw class code. -/
theorem quality_label_clamp (v : ℤ) :
    quality_labels.getD
        (min ((quality_labels.length : ℤ) - 1) (max 0 v)).toNat "" =
      (if v ≤ 0 then "Safe" else if v = 1 then "Warning"
       else "Dangerous") := by
  have h2 : ((quality_labels.length : ℤ) - 1) = 2 := rfl
  rw [h2]
  by_cases h0 : v ≤ 0
  · have hidx : (min (2:ℤ) (max 0 v)).toNat = 0 := by omega
    rw [hidx]; simp [quality_labels, h0]
  · by_cases h1 : v = 1
    · subst h1; norm_num [quality_labels]
    · have hidx : (min (2:ℤ) (max 0 v)).toNat = 2 := by omega
      rw [hidx]; simp [quality_labels, h0, h1]

/-- C8: in the model-derived path the quality status is the 3-way
label table indexed at the raw class code clamped to [0,2], and the
anomaly flag is true exactly when the raw detector output is the
sentinel -1. -/
theorem model_output_mapping (env : ModelsEnv) (p t : ℚ) (v w : ℤ) :
    (env.class_loaded = true → env.class_predict p t = .ok v →
      (qualityPrediction env p t).status =
        (if v ≤ 0 then "Safe" else if v = 1 then "Warning"
         else "Dangerous") ∧
      0 ≤ min ((quality_labels.length : ℤ) - 1) (max 0 v) ∧
      min ((quality_labels.length : ℤ) - 1) (max 0 v) ≤ 2) ∧
    (env.anomaly_loaded = true → env.anomaly_predict p t = .ok w →
      ((anomalyPrediction env p t).is_anomaly = true ↔ w = -1)) := by
  constructor
  · intro hl hv
    refine ⟨?_, ?_, ?_⟩
    · rw [← quality_label_clamp v]
      simp [qualityPrediction, hl, hv]
    · simp [quality_labels]
    · simp [quality_labels]
  · intro hl hw
    simp [anomalyPrediction, hl, hw]

/-- Witness for the C8 theorem: classifier output 7 clamps to label
index 2 (Dangerous) and detector output -1 flags an anomaly. -/
theorem model_output_mapping_witness :
    constModelsEnv.class_loaded = true ∧
    constModelsEnv.class_predict 7 500 = .ok 7 ∧
    constModelsEnv.anomaly_predict 7 500 = .ok (-1) ∧
    (qualityPrediction constModelsEnv 7 500).status =
      (if (7:ℤ) ≤ 0 then "Safe" else if (7:ℤ) = 1 then "Warning"
       else "Dangerous") ∧
    ((anomalyPrediction constModelsEnv 7 500).is_anomaly = true ↔
      (-1:ℤ) = -1) :=
  ⟨rfl, rfl, rfl,
   ((model_output_mapping constModelsEnv 7 500 7 (-1)).1 rfl rfl).1,
   (model_output_mapping constModelsEnv 7 500 7 (-1)).2 rfl rfl⟩

/-- Every branch of the maintenance try-block yields at least one day
until replacement. -/
theorem maintenance_days_ge_one (env : ModelsEnv) (p t o : ℚ) :
    1 ≤ (maintenancePrediction env p t o).days_until_replacement := by
  unfold maintenancePrediction
  split_ifs with h
  · cases h2 : env.pm_predict p t o p with
    | ok val => simp [le_max_left]
    | error u => simp
  · simp [le_max_left]

/-- C10: every maintenance group of a 200 response reports
days_until_replacement at least 1, on the model path, the heuristic
path and the exception path alike. -/
theorem maintenance_days_positive (env : ModelsEnv)
    (data : Option RequestBody) (preds : Predictions) (m : MaintResult)
    (hresp : get_ai_predictions env data = .success preds)
    (hm : preds.maintenance = some m) :
    1 ≤ m.days_until_replacement := by
  cases data with
  | none => simp [get_ai_predictions] at hresp
  | some body =>
    simp only [get_ai_predictions, PredResponse.success.injEq] at hresp
    subst hresp
    simp only [Option.some.injEq] at hm
    subst hm
    exact maintenance_days_ge_one env _ _ _

/-- Witness for the C10 theorem at a concrete environment, request and
bundle. -/
theorem maintenance_days_positive_witness :
    get_ai_predictions noModelsEnv
        (some { pH := some 7, turbidity := some 500, orp := some (-100) }) =
      .success
        { maintenance :=
            some { days_until_replacement := 7, confidence := 75,
                   error := none }
          quality :=
            some { status := "Safe", confidence := 7/10, error := none }
          anomaly :=
            some { is_anomaly := false, status := "Normal Operation",
                   error := none } } ∧
    (1:ℤ) ≤
      (MaintResult.mk 7 75 none).days_until_replacement :=
  ⟨by norm_num [get_ai_predictions, maintenancePrediction,
      qualityPrediction, anomalyPrediction, heuristicQuality, pyInt,
      noModelsEnv],
   maintenance_days_positive noModelsEnv
     (some { pH := some 7, turbidity := some 500, orp := some (-100) })
     { maintenance := some { days_until_replacement := 7, confidence := 75,
                             error := none }
       quality := some { status := "Safe", confidence := 7/10, error := none }
       anomaly := some { is_anomaly := false, status := "Normal Operation",
                         error := none } }
     { days_until_replacement := 7, confidence := 75, error := none }
     (by norm_num [get_ai_predictions, maintenancePrediction,
        qualityPrediction, anomalyPrediction, heuristicQuality, pyInt,
        noModelsEnv]) rfl⟩

end AMDBackend
